import Mathlib

/-!
Shallow embedding of `src/server.js` (auth + game-stats backend).

External collaborators are modelled at the granularity of their contracts:
* bcrypt: `hash(pw, 10)` draws a fresh salt per call; `compare(pw, h)`
  succeeds exactly when `pw` is the plaintext that was hashed.  We model a
  hash as the pair (plaintext, salt) with comparison ignoring the salt.
* jsonwebtoken: `sign` embeds `{id, email}`, issued-at and a 1-day expiry and
  signs with the process secret; `verify` checks the signature and expiry.
  We model a token as its decoded payload plus the secret it was signed with
  (standing for the signature); base64 wire decoding is an explicit
  `decode : String → Option Token` parameter of the middleware.
* Postgres: the two tables become lists of rows; `SELECT ... WHERE` with
  `rows[0]` becomes `List.find?`, `UPDATE ... WHERE id` becomes a map over
  the list, `INSERT ... RETURNING id` assigns the next serial id.
* `Math.random()`, `Date.now()` and nodemailer success are explicit
  parameters (`k`, `now` in milliseconds, `mailOk`).
JS body fields arrive as strings; an absent/empty field is falsy, so absence
is modelled as the empty string (all handler uses are truthiness tests
followed by string operations guarded by those tests).
-/

namespace GameBack

/-- A bcrypt hash: the hashed plaintext together with the per-call salt. -/
structure BHash where
  pw : String
  salt : Nat
deriving DecidableEq

/-- `bcrypt.hash(password, 10)` with explicit salt. -/
def bcryptHash (password : String) (salt : Nat) : BHash := ⟨password, salt⟩

/-- `bcrypt.compare(password, hash)`. -/
def bcryptCompare (password : String) (h : BHash) : Bool := password == h.pw

/-- The claims `jwt.verify` hands to the request (`{id, email}`). -/
structure TokenClaims where
  id : Nat
  email : String
deriving DecidableEq

/-- A signed JWT: payload, issued-at, expiry (ms), and the secret it was
signed with (modelling the signature). -/
structure Token where
  id : Nat
  email : String
  iat : Nat
  exp : Nat
  sig : String
deriving DecidableEq

/-- `expiresIn: "1d"` in milliseconds. -/
def oneDayMs : Nat := 86400000

/-- A row of the `users` table (`src/server.js` schema:
`users(id, name, email, password_hash, reset_token, reset_expires)`). -/
structure User where
  id : Nat
  name : String
  email : String
  password_hash : BHash
  reset_token : Option String
  reset_expires : Option Nat
deriving DecidableEq

/-- A row of the `game_stats` table. -/
structure GameStat where
  id : Nat
  user_id : Nat
  game_type : String
  total_hours : Rat
  high_score : Int
  total_score : Int
deriving DecidableEq

/-- The relational store: both tables plus their serial-id counters. -/
structure DB where
  users : List User
  nextUserId : Nat
  stats : List GameStat
  nextStatId : Nat
deriving DecidableEq

/-- `src/server.js:41-47` — `generateToken(user)`. -/
def generateToken (user : User) (secret : String) (now : Nat) : Token :=
  ⟨user.id, user.email, now, now + oneDayMs, secret⟩

/-- `jwt.verify(token, secret)` at time `now`: signature and expiry check. -/
def jwtVerify (t : Token) (secret : String) (now : Nat) : Option TokenClaims :=
  if t.sig == secret && now < t.exp then some ⟨t.id, t.email⟩ else none

/-- `src/server.js:49-51` — `generateResetCode()`:
`Math.floor(100000 + Math.random() * 900000).toString()`.
`k % 900000` is `Math.floor(Math.random() * 900000)`, the randomness source
made explicit. -/
def generateResetCode (k : Nat) : String :=
  Nat.repr (100000 + k % 900000)

/-- `SELECT ... FROM users WHERE email = $1` followed by `rows[0]`. -/
def findUserByEmail (db : DB) (email : String) : Option User :=
  db.users.find? (fun u => u.email == email)

/-- `UPDATE users SET ... WHERE id = $n`: apply `f` to the rows with this id. -/
def updateUserRow (db : DB) (id : Nat) (f : User → User) : DB :=
  { db with users := db.users.map (fun u => if u.id == id then f u else u) }

/-- Public projection of a user (`RETURNING id, name, email` and the login
response's `user` object): the hash is never echoed. -/
structure PublicUser where
  id : Nat
  name : String
  email : String
deriving DecidableEq

/-- Response of `POST /auth/register`. -/
structure RegisterResponse where
  status : Nat
  msg : String
  user : Option PublicUser
deriving DecidableEq

/-- Response of `POST /auth/login` (success has no `msg` field). -/
structure LoginResponse where
  status : Nat
  msg : Option String
  token : Option Token
  user : Option PublicUser
deriving DecidableEq

/-- A `{status, msg}` JSON response. -/
structure SimpleResponse where
  status : Nat
  msg : String
deriving DecidableEq

/-- `src/server.js:70-93` — `POST /auth/register`.  `salt` is the salt bcrypt
draws for this call. -/
def registerHandler (db : DB) (name email password : String) (salt : Nat) :
    RegisterResponse × DB :=
  if name = "" ∨ email = "" ∨ password = "" then
    (⟨400, "Preencha todos os campos.", none⟩, db)
  else
    match findUserByEmail db email with
    | some _ => (⟨400, "Email já cadastrado.", none⟩, db)
    | none =>
      let hash := bcryptHash password salt
      let u : User := ⟨db.nextUserId, name, email, hash, none, none⟩
      (⟨201, "Conta criada com sucesso.", some ⟨u.id, u.name, u.email⟩⟩,
        { db with users := db.users ++ [u], nextUserId := db.nextUserId + 1 })

/-- `src/server.js:96-115` — `POST /auth/login`. -/
def loginHandler (db : DB) (email password secret : String) (now : Nat) :
    LoginResponse :=
  if email = "" ∨ password = "" then
    ⟨400, some "Preencha todos os campos.", none, none⟩
  else
    match findUserByEmail db email with
    | none => ⟨400, some "Credenciais incorretas.", none, none⟩
    | some user =>
      if bcryptCompare password user.password_hash then
        ⟨200, none, some (generateToken user secret now),
          some ⟨user.id, user.name, user.email⟩⟩
      else
        ⟨400, some "Credenciais incorretas.", none, none⟩

/-- `src/server.js:118-148` — `POST /auth/forgot-password`.  `k` feeds
`generateResetCode`, `now` is `Date.now()`, `mailOk` is whether
`transporter.sendMail` succeeds (its failure is caught at line 144 after the
UPDATE already ran). -/
def forgotPasswordHandler (db : DB) (email : String) (k now : Nat)
    (mailOk : Bool) : SimpleResponse × DB :=
  if email = "" then (⟨400, "Informe o email."⟩, db)
  else
    match findUserByEmail db email with
    | none => (⟨400, "Email não encontrado."⟩, db)
    | some user =>
      let code := generateResetCode k
      let expires := now + 15 * 60 * 1000
      let db' := updateUserRow db user.id
        (fun u => { u with reset_token := some code, reset_expires := some expires })
      if mailOk then (⟨200, "Código enviado para o email."⟩, db')
      else (⟨500, "Erro ao enviar email."⟩, db')

/-- `src/server.js:151-177` — `POST /auth/reset-password`.  The body field is
called `token` (the emailed reset code).  `new Date(null)` is epoch 0, hence
`getD 0` on a (invariant-violating) null expiry. -/
def resetPasswordHandler (db : DB) (email tok newPassword : String)
    (now salt : Nat) : SimpleResponse × DB :=
  if email = "" ∨ tok = "" ∨ newPassword = "" then
    (⟨400, "Dados incompletos."⟩, db)
  else if newPassword.length < 6 then (⟨400, "Senha curta demais."⟩, db)
  else
    match findUserByEmail db email with
    | none => (⟨400, "Usuário não encontrado."⟩, db)
    | some user =>
      if user.reset_token ≠ some tok then (⟨400, "Código inválido."⟩, db)
      else if now > user.reset_expires.getD 0 then
        (⟨400, "Código expirado."⟩, db)
      else
        (⟨200, "Senha alterada com sucesso."⟩,
          updateUserRow db user.id (fun u =>
            { u with password_hash := bcryptHash newPassword salt,
                     reset_token := none, reset_expires := none }))

/-- JS `s.split(' ')`: the chunks between the spaces, in order (consecutive
spaces yield empty chunks, as in JS). -/
def splitOnSpaceAux : List Char → List Char → List String
  | [], acc => [String.mk acc.reverse]
  | c :: rest, acc =>
    if c = ' ' then String.mk acc.reverse :: splitOnSpaceAux rest []
    else splitOnSpaceAux rest (c :: acc)

/-- JS `s.split(' ')` on a string. -/
def splitOnSpace (s : String) : List String := splitOnSpaceAux s.toList []

/-- `src/server.js:54-56` — extraction of the bearer token from the
`Authorization` header: `authHeader && authHeader.split(' ')[1]`, with a
falsy result (absent header, missing or empty second word) meaning "no
token". -/
def splitToken (authHeader : Option String) : Option String :=
  match authHeader with
  | none => none
  | some h =>
    match (splitOnSpace h).get? 1 with
    | none => none
    | some t => if t = "" then none else some t

/-- `src/server.js:54-65` — `authenticateToken` middleware.  `mk` builds this
endpoint's error response from status and message; `decode` is the wire
(base64) decoding of a token string, `jwt.verify`'s failure on garbage being
`none`. -/
def authenticateToken {α : Type} (mk : Nat → String → α)
    (authHeader : Option String) (decode : String → Option Token)
    (secret : String) (now : Nat) (handler : TokenClaims → α) : α :=
  match splitToken authHeader with
  | none => mk 401 "Acesso negado."
  | some s =>
    match (decode s).bind (fun t => jwtVerify t secret now) with
    | none => mk 403 "Token inválido."
    | some claims => handler claims

/-- `src/server.js:182-218` — `POST /stats/update` body handler, after the
middleware.  `numScore`/`numDuration` are the already-coerced
`parseInt(score, 10) || 0` and `parseFloat(duration) || 0`. -/
def statsUpdateHandler (db : DB) (claims : TokenClaims) (gameType : String)
    (numScore : Int) (numDuration : Rat) : SimpleResponse × DB :=
  let userId := claims.id
  match db.stats.find? (fun r => r.user_id == userId && r.game_type == gameType) with
  | none =>
    let row : GameStat := ⟨db.nextStatId, userId, gameType, numDuration, numScore, numScore⟩
    (⟨200, "Stats updated"⟩,
      { db with stats := db.stats ++ [row], nextStatId := db.nextStatId + 1 })
  | some current =>
    let newTotalHours := current.total_hours + numDuration
    let newTotalScore := current.total_score + numScore
    let newHighScore :=
      if numScore > current.high_score then numScore else current.high_score
    (⟨200, "Stats updated"⟩,
      { db with stats := db.stats.map (fun r =>
          if r.id == current.id then
            { r with total_hours := newTotalHours, total_score := newTotalScore,
                     high_score := newHighScore }
          else r) })

/-- `POST /stats/update` with its `authenticateToken` gate. -/
def statsUpdateRoute (db : DB) (authHeader : Option String)
    (decode : String → Option Token) (secret : String) (now : Nat)
    (gameType : String) (numScore : Int) (numDuration : Rat) :
    SimpleResponse × DB :=
  authenticateToken (fun st m => (⟨st, m⟩, db)) authHeader decode secret now
    (fun claims => statsUpdateHandler db claims gameType numScore numDuration)

/-- The per-subject maps of the `/stats/me` response. -/
structure StatsData where
  scores : List (String × Int)
  highScores : List (String × Int)
  hours : List (String × Rat)
deriving DecidableEq

/-- Assign `v` at key `key` in an association list (in-place field write on
the fixed-key stats object). -/
def setVal {β : Type} (l : List (String × β)) (key : String) (v : β) :
    List (String × β) :=
  l.map (fun p => if p.1 == key then (p.1, v) else p)

/-- The four known game types, `src/server.js:254`. -/
def games : List String := ["matematica", "computacao", "portugues", "historia"]

/-- `src/server.js:221-249` — `GET /stats/me` body handler: fold the user's
rows into the zero-initialised fixed-key object, ignoring unknown game
types. -/
def statsMe (db : DB) (userId : Nat) : StatsData :=
  let init : StatsData :=
    ⟨games.map (fun g => (g, 0)), games.map (fun g => (g, 0)),
      games.map (fun g => (g, 0))⟩
  (db.stats.filter (fun r => r.user_id == userId)).foldl
    (fun s row =>
      if (s.scores.find? (fun p => p.1 == row.game_type)).isSome then
        ⟨setVal s.scores row.game_type row.total_score,
          setVal s.highScores row.game_type row.high_score,
          setVal s.hours row.game_type row.total_hours⟩
      else s)
    init

/-- Response of `GET /stats/me`. -/
structure MeResponse where
  status : Nat
  msg : Option String
  data : Option StatsData
deriving DecidableEq

/-- `GET /stats/me` with its `authenticateToken` gate. -/
def statsMeRoute (db : DB) (authHeader : Option String)
    (decode : String → Option Token) (secret : String) (now : Nat) :
    MeResponse :=
  authenticateToken (fun st m => ⟨st, some m, none⟩) authHeader decode secret now
    (fun claims => ⟨200, none, some (statsMe db claims.id)⟩)

/-- One entry of the ranking: `{name, high_score}`. -/
structure RankEntry where
  name : String
  high_score : Int
deriving DecidableEq

/-- The rows of the per-game ranking query: `game_stats` rows of this game
inner-joined to their user (`JOIN users u ON gs.user_id = u.id`). -/
def gameRows (db : DB) (game : String) : List RankEntry :=
  db.stats.filterMap (fun gs =>
    if gs.game_type == game then
      (db.users.find? (fun u => u.id == gs.user_id)).map
        (fun u => ⟨u.name, gs.high_score⟩)
    else none)

/-- Fold selecting a row of maximal `high_score` (first of the maxima). -/
def topFold (l : List RankEntry) (b : RankEntry) : RankEntry :=
  l.foldl (fun best x => if x.high_score > best.high_score then x else best) b

/-- `ORDER BY gs.high_score DESC LIMIT 1` over the joined rows, with the
`{name: '---', high_score: 0}` fallback for an empty result. -/
def topEntry : List RankEntry → RankEntry
  | [] => ⟨"---", 0⟩
  | r :: rs => topFold rs r

/-- Response of `GET /stats/ranking`. -/
structure RankingResponse where
  status : Nat
  ranking : List (String × RankEntry)
deriving DecidableEq

/-- `src/server.js:252-278` — `GET /stats/ranking`.  The route is registered
without the middleware; the header parameter is there to state that it is
ignored. -/
def rankingHandler (db : DB) (_authHeader : Option String) : RankingResponse :=
  ⟨200, games.map (fun g => (g, topEntry (gameRows db g)))⟩

/-- The data-model invariant: `reset_token` and `reset_expires` are both set
or both null on a user row. -/
def resetFieldsConsistent (u : User) : Prop :=
  u.reset_token.isSome = u.reset_expires.isSome

/-- The invariant over the whole store. -/
def storeConsistent (db : DB) : Prop :=
  ∀ u ∈ db.users, resetFieldsConsistent u

/-! Concrete sample data used to instantiate the theorems. -/

/-- An empty store. -/
def db0 : DB := ⟨[], 1, [], 1⟩

/-- A registered user with no pending reset. -/
def ana : User := ⟨1, "Ana", "ana@x.com", bcryptHash "secret1" 0, none, none⟩

/-- The same user with a pending reset code expiring at t = 1000 ms. -/
def anaPending : User :=
  ⟨1, "Ana", "ana@x.com", bcryptHash "secret1" 0, some "123456", some 1000⟩

/-- Store holding `ana`. -/
def dbAna : DB := ⟨[ana], 2, [], 1⟩

/-- Store holding `anaPending`. -/
def dbPending : DB := ⟨[anaPending], 2, [], 1⟩

/-- A `game_stats` row for `ana`. -/
def statRow : GameStat := ⟨1, 1, "matematica", 2, 50, 50⟩

/-- Store holding `ana` and her stats row. -/
def dbStats : DB := ⟨[ana], 2, [statRow], 2⟩

/-- A sample well-formed token signed with secret `"s"`, expiring at 100 ms. -/
def tok0 : Token := ⟨1, "ana@x.com", 0, 100, "s"⟩

end GameBack

namespace GameBack

/-! ## Theorems -/

/-- **C1**: For every valid (name, email, password) with all fields non-empty
and the email not yet registered, Register succeeds (201, returning only
{id, name, email}); a subsequent Login with the same email and password
succeeds and returns a token whose verification yields the id assigned at
registration. -/
theorem register_then_login_token_roundtrip
    (db : DB) (name email password secret : String) (salt now : Nat)
    (hn : name ≠ "") (he : email ≠ "") (hp : password ≠ "")
    (hfresh : findUserByEmail db email = none) :
    (registerHandler db name email password salt).1.status = 201 ∧
    (registerHandler db name email password salt).1.user =
      some ⟨db.nextUserId, name, email⟩ ∧
    (loginHandler (registerHandler db name email password salt).2
        email password secret now).status = 200 ∧
    ∃ t, (loginHandler (registerHandler db name email password salt).2
        email password secret now).token = some t ∧
      jwtVerify t secret now = some ⟨db.nextUserId, email⟩ := by
  have hshape : ¬(name = "" ∨ email = "" ∨ password = "") := by
    push_neg
    exact ⟨hn, he, hp⟩
  have hshape2 : ¬(email = "" ∨ password = "") := by
    push_neg
    exact ⟨he, hp⟩
  have hfind : db.users.find? (fun u => u.email == email) = none := hfresh
  simp only [registerHandler, if_neg hshape, hfresh]
  simp only [loginHandler, if_neg hshape2, findUserByEmail, List.find?_append,
    hfind, Option.none_or]
  simp [List.find?, bcryptCompare, bcryptHash, generateToken, jwtVerify, oneDayMs]

end GameBack

namespace GameBack

/-- Witness for C1 at a concrete registration. -/
theorem register_then_login_token_roundtrip_witness :
    ("Ana" : String) ≠ "" ∧ ("ana@x.com" : String) ≠ "" ∧
    ("secret1" : String) ≠ "" ∧ findUserByEmail db0 "ana@x.com" = none ∧
    ((registerHandler db0 "Ana" "ana@x.com" "secret1" 0).1.status = 201 ∧
     (registerHandler db0 "Ana" "ana@x.com" "secret1" 0).1.user =
       some ⟨db0.nextUserId, "Ana", "ana@x.com"⟩ ∧
     (loginHandler (registerHandler db0 "Ana" "ana@x.com" "secret1" 0).2
         "ana@x.com" "secret1" "s" 7).status = 200 ∧
     ∃ t, (loginHandler (registerHandler db0 "Ana" "ana@x.com" "secret1" 0).2
         "ana@x.com" "secret1" "s" 7).token = some t ∧
       jwtVerify t "s" 7 = some ⟨db0.nextUserId, "ana@x.com"⟩) :=
  ⟨by decide, by decide, by decide, rfl,
    register_then_login_token_roundtrip db0 "Ana" "ana@x.com" "secret1" "s" 0 7
      (by decide) (by decide) (by decide) rfl⟩

/-- Branch characterization of `resetPasswordHandler`: one equation per
branch of the precondition chain. -/
theorem resetPasswordHandler_branches
    (db : DB) (email tok newPassword : String) (now salt : Nat) :
    ((email = "" ∨ tok = "" ∨ newPassword = "") →
      resetPasswordHandler db email tok newPassword now salt =
        (⟨400, "Dados incompletos."⟩, db)) ∧
    (email ≠ "" → tok ≠ "" → newPassword ≠ "" → newPassword.length < 6 →
      resetPasswordHandler db email tok newPassword now salt =
        (⟨400, "Senha curta demais."⟩, db)) ∧
    (email ≠ "" → tok ≠ "" → newPassword ≠ "" → ¬ newPassword.length < 6 →
      findUserByEmail db email = none →
      resetPasswordHandler db email tok newPassword now salt =
        (⟨400, "Usuário não encontrado."⟩, db)) ∧
    (∀ u, email ≠ "" → tok ≠ "" → newPassword ≠ "" → ¬ newPassword.length < 6 →
      findUserByEmail db email = some u → u.reset_token ≠ some tok →
      resetPasswordHandler db email tok newPassword now salt =
        (⟨400, "Código inválido."⟩, db)) ∧
    (∀ u, email ≠ "" → tok ≠ "" → newPassword ≠ "" → ¬ newPassword.length < 6 →
      findUserByEmail db email = some u → u.reset_token = none →
      resetPasswordHandler db email tok newPassword now salt =
        (⟨400, "Código inválido."⟩, db)) ∧
    (∀ u, email ≠ "" → tok ≠ "" → newPassword ≠ "" → ¬ newPassword.length < 6 →
      findUserByEmail db email = some u → u.reset_token = some tok →
      now > u.reset_expires.getD 0 →
      resetPasswordHandler db email tok newPassword now salt =
        (⟨400, "Código expirado."⟩, db)) ∧
    (∀ u, email ≠ "" → tok ≠ "" → newPassword ≠ "" → ¬ newPassword.length < 6 →
      findUserByEmail db email = some u → u.reset_token = some tok →
      ¬ now > u.reset_expires.getD 0 →
      resetPasswordHandler db email tok newPassword now salt =
        (⟨200, "Senha alterada com sucesso."⟩,
          updateUserRow db u.id (fun w =>
            { w with password_hash := bcryptHash newPassword salt,
                     reset_token := none, reset_expires := none }))) := by
  refine ⟨?_, ?_, ?_, ?_, ?_, ?_, ?_⟩
  · intro h
    simp only [resetPasswordHandler, if_pos h]
  · intro h1 h2 h3 h4
    have hs : ¬ (email = "" ∨ tok = "" ∨ newPassword = "") := by
      push_neg
      exact ⟨h1, h2, h3⟩
    simp only [resetPasswordHandler, if_neg hs, if_pos h4]
  · intro h1 h2 h3 h4 hfind
    have hs : ¬ (email = "" ∨ tok = "" ∨ newPassword = "") := by
      push_neg
      exact ⟨h1, h2, h3⟩
    simp only [resetPasswordHandler, if_neg hs, if_neg h4, hfind]
  · intro u h1 h2 h3 h4 hfind hne
    have hs : ¬ (email = "" ∨ tok = "" ∨ newPassword = "") := by
      push_neg
      exact ⟨h1, h2, h3⟩
    simp only [resetPasswordHandler, if_neg hs, if_neg h4, hfind, if_pos hne]
  · intro u h1 h2 h3 h4 hfind hnone
    have hs : ¬ (email = "" ∨ tok = "" ∨ newPassword = "") := by
      push_neg
      exact ⟨h1, h2, h3⟩
    have hne : u.reset_token ≠ some tok := by
      rw [hnone]
      exact (Option.noConfusion ·)
    simp only [resetPasswordHandler, if_neg hs, if_neg h4, hfind, if_pos hne]
  · intro u h1 h2 h3 h4 hfind heq hexp
    have hs : ¬ (email = "" ∨ tok = "" ∨ newPassword = "") := by
      push_neg
      exact ⟨h1, h2, h3⟩
    have hne : ¬ u.reset_token ≠ some tok := by
      rw [heq]
      exact not_ne_iff.mpr rfl
    simp only [resetPasswordHandler, if_neg hs, if_neg h4, hfind, if_neg hne,
      if_pos hexp]
  · intro u h1 h2 h3 h4 hfind heq hexp
    have hs : ¬ (email = "" ∨ tok = "" ∨ newPassword = "") := by
      push_neg
      exact ⟨h1, h2, h3⟩
    have hne : ¬ u.reset_token ≠ some tok := by
      rw [heq]
      exact not_ne_iff.mpr rfl
    simp only [resetPasswordHandler, if_neg hs, if_neg h4, hfind, if_neg hne,
      if_neg hexp]

/-- **C2**: ResetPassword checks its preconditions in the strict order
shape → user existence → code comparison → expiry → mutating update; the
first failing precondition short-circuits with its error, and a null stored
code mismatches any submitted code. -/
theorem resetPassword_precondition_chain
    (db : DB) (email tok newPassword : String) (now salt : Nat) :
    ((email = "" ∨ tok = "" ∨ newPassword = "") →
      resetPasswordHandler db email tok newPassword now salt =
        (⟨400, "Dados incompletos."⟩, db)) ∧
    (email ≠ "" → tok ≠ "" → newPassword ≠ "" → newPassword.length < 6 →
      resetPasswordHandler db email tok newPassword now salt =
        (⟨400, "Senha curta demais."⟩, db)) ∧
    (email ≠ "" → tok ≠ "" → newPassword ≠ "" → ¬ newPassword.length < 6 →
      findUserByEmail db email = none →
      resetPasswordHandler db email tok newPassword now salt =
        (⟨400, "Usuário não encontrado."⟩, db)) ∧
    (∀ u, email ≠ "" → tok ≠ "" → newPassword ≠ "" → ¬ newPassword.length < 6 →
      findUserByEmail db email = some u → u.reset_token ≠ some tok →
      resetPasswordHandler db email tok newPassword now salt =
        (⟨400, "Código inválido."⟩, db)) ∧
    (∀ u, email ≠ "" → tok ≠ "" → newPassword ≠ "" → ¬ newPassword.length < 6 →
      findUserByEmail db email = some u → u.reset_token = none →
      resetPasswordHandler db email tok newPassword now salt =
        (⟨400, "Código inválido."⟩, db)) ∧
    (∀ u, email ≠ "" → tok ≠ "" → newPassword ≠ "" → ¬ newPassword.length < 6 →
      findUserByEmail db email = some u → u.reset_token = some tok →
      now > u.reset_expires.getD 0 →
      resetPasswordHandler db email tok newPassword now salt =
        (⟨400, "Código expirado."⟩, db)) ∧
    (∀ u, email ≠ "" → tok ≠ "" → newPassword ≠ "" → ¬ newPassword.length < 6 →
      findUserByEmail db email = some u → u.reset_token = some tok →
      ¬ now > u.reset_expires.getD 0 →
      resetPasswordHandler db email tok newPassword now salt =
        (⟨200, "Senha alterada com sucesso."⟩,
          updateUserRow db u.id (fun w =>
            { w with password_hash := bcryptHash newPassword salt,
                     reset_token := none, reset_expires := none }))) :=
  resetPasswordHandler_branches db email tok newPassword now salt

/-- Witness for C2: each precondition short-circuits at a concrete input on
the store `dbPending` (code `"123456"`, expiry 1000 ms). -/
theorem resetPassword_precondition_chain_witness :
    resetPasswordHandler dbPending "" "123456" "newpass1" 0 0 =
      (⟨400, "Dados incompletos."⟩, dbPending) ∧
    resetPasswordHandler dbPending "ana@x.com" "123456" "abc" 0 0 =
      (⟨400, "Senha curta demais."⟩, dbPending) ∧
    resetPasswordHandler dbPending "bob@x.com" "123456" "newpass1" 0 0 =
      (⟨400, "Usuário não encontrado."⟩, dbPending) ∧
    resetPasswordHandler dbPending "ana@x.com" "999999" "newpass1" 0 0 =
      (⟨400, "Código inválido."⟩, dbPending) ∧
    resetPasswordHandler dbAna "ana@x.com" "123456" "newpass1" 0 0 =
      (⟨400, "Código inválido."⟩, dbAna) ∧
    resetPasswordHandler dbPending "ana@x.com" "123456" "newpass1" 2000 0 =
      (⟨400, "Código expirado."⟩, dbPending) :=
  ⟨(resetPassword_precondition_chain dbPending "" "123456" "newpass1" 0 0).1
      (Or.inl rfl),
   (resetPassword_precondition_chain dbPending "ana@x.com" "123456" "abc" 0 0).2.1
      (by decide) (by decide) (by decide) (by decide),
   (resetPassword_precondition_chain dbPending "bob@x.com" "123456" "newpass1" 0 0).2.2.1
      (by decide) (by decide) (by decide) (by decide) rfl,
   (resetPassword_precondition_chain dbPending "ana@x.com" "999999" "newpass1" 0 0).2.2.2.1
      anaPending (by decide) (by decide) (by decide) (by decide) rfl (by decide),
   (resetPassword_precondition_chain dbAna "ana@x.com" "123456" "newpass1" 0 0).2.2.2.2.1
      ana (by decide) (by decide) (by decide) (by decide) rfl rfl,
   (resetPassword_precondition_chain dbPending "ana@x.com" "123456" "newpass1" 2000 0).2.2.2.2.2.1
      anaPending (by decide) (by decide) (by decide) (by decide) rfl rfl
      (by decide)⟩

end GameBack

namespace GameBack

/-- **C3**: a Login with a nonexistent email and a Login with an existing
email but wrong password return identical status and message
(anti-enumeration). -/
theorem login_failures_indistinguishable
    (dbA dbB : DB) (emailA pwA emailB pwB secretA secretB : String)
    (nowA nowB : Nat) (u : User)
    (heA : emailA ≠ "") (hpA : pwA ≠ "")
    (hmiss : findUserByEmail dbA emailA = none)
    (heB : emailB ≠ "") (hpB : pwB ≠ "")
    (hfound : findUserByEmail dbB emailB = some u)
    (hwrong : bcryptCompare pwB u.password_hash = false) :
    (loginHandler dbA emailA pwA secretA nowA).status =
      (loginHandler dbB emailB pwB secretB nowB).status ∧
    (loginHandler dbA emailA pwA secretA nowA).msg =
      (loginHandler dbB emailB pwB secretB nowB).msg := by
  have hsA : ¬ (emailA = "" ∨ pwA = "") := by
    push_neg
    exact ⟨heA, hpA⟩
  have hsB : ¬ (emailB = "" ∨ pwB = "") := by
    push_neg
    exact ⟨heB, hpB⟩
  simp only [loginHandler, if_neg hsA, if_neg hsB, hmiss, hfound, hwrong,
    Bool.false_eq_true, if_false]
  exact ⟨trivial, trivial⟩

/-- Witness for C3: unknown email vs. wrong password for `ana`. -/
theorem login_failures_indistinguishable_witness :
    findUserByEmail dbAna "bob@x.com" = none ∧
    findUserByEmail dbAna "ana@x.com" = some ana ∧
    bcryptCompare "wrong" ana.password_hash = false ∧
    ((loginHandler dbAna "bob@x.com" "whatever" "s" 0).status =
       (loginHandler dbAna "ana@x.com" "wrong" "s" 0).status ∧
     (loginHandler dbAna "bob@x.com" "whatever" "s" 0).msg =
       (loginHandler dbAna "ana@x.com" "wrong" "s" 0).msg) :=
  ⟨rfl, rfl, by decide,
    login_failures_indistinguishable dbAna dbAna "bob@x.com" "whatever"
      "ana@x.com" "wrong" "s" "s" 0 0 ana (by decide) (by decide) rfl
      (by decide) (by decide) rfl (by decide)⟩

/-- **C4**: every failing ResetPassword leaves the store unchanged; in
particular a correct code after expiry fails with CodeExpired without
touching the password hash, and a wrong code fails with CodeMismatch
leaving the stored code/expiry intact, so repeated wrong attempts are
idempotent. -/
theorem resetPassword_failure_preserves_state
    (db : DB) (email tok newPassword : String) (now salt : Nat) :
    ((resetPasswordHandler db email tok newPassword now salt).1.status ≠ 200 →
      (resetPasswordHandler db email tok newPassword now salt).2 = db) ∧
    (∀ u, email ≠ "" → tok ≠ "" → newPassword ≠ "" → ¬ newPassword.length < 6 →
      findUserByEmail db email = some u → u.reset_token = some tok →
      now > u.reset_expires.getD 0 →
      (resetPasswordHandler db email tok newPassword now salt).1 =
        ⟨400, "Código expirado."⟩ ∧
      (resetPasswordHandler db email tok newPassword now salt).2 = db) ∧
    (∀ u, email ≠ "" → tok ≠ "" → newPassword ≠ "" → ¬ newPassword.length < 6 →
      findUserByEmail db email = some u → u.reset_token ≠ some tok →
      (resetPasswordHandler db email tok newPassword now salt).1 =
        ⟨400, "Código inválido."⟩ ∧
      (resetPasswordHandler db email tok newPassword now salt).2 = db ∧
      resetPasswordHandler
          (resetPasswordHandler db email tok newPassword now salt).2
          email tok newPassword now salt =
        resetPasswordHandler db email tok newPassword now salt) := by
  refine ⟨?_, ?_, ?_⟩
  · intro hst
    by_cases h1 : email = "" ∨ tok = "" ∨ newPassword = ""
    · simp only [resetPasswordHandler, if_pos h1]
    · by_cases h2 : newPassword.length < 6
      · simp only [resetPasswordHandler, if_neg h1, if_pos h2]
      · rcases hfind : findUserByEmail db email with _ | u
        · simp only [resetPasswordHandler, if_neg h1, if_neg h2, hfind]
        · by_cases h3 : u.reset_token ≠ some tok
          · simp only [resetPasswordHandler, if_neg h1, if_neg h2, hfind,
              if_pos h3]
          · by_cases h4 : now > u.reset_expires.getD 0
            · simp only [resetPasswordHandler, if_neg h1, if_neg h2, hfind,
                if_neg h3, if_pos h4]
            · exfalso
              apply hst
              simp only [resetPasswordHandler, if_neg h1, if_neg h2, hfind,
                if_neg h3, if_neg h4]
  · intro u h1 h2 h3 h4 hfind heq hexp
    have h :=
      (resetPasswordHandler_branches db email tok newPassword now salt).2.2.2.2.2.1
        u h1 h2 h3 h4 hfind heq hexp
    rw [h]
    exact ⟨rfl, rfl⟩
  · intro u h1 h2 h3 h4 hfind hne
    have h :=
      (resetPasswordHandler_branches db email tok newPassword now salt).2.2.2.1
        u h1 h2 h3 h4 hfind hne
    rw [h]
    exact ⟨rfl, rfl, h⟩

/-- Witness for C4: expired correct code and wrong code on `dbPending`. -/
theorem resetPassword_failure_preserves_state_witness :
    ((resetPasswordHandler dbPending "ana@x.com" "123456" "newpass1" 2000 0).1 =
       ⟨400, "Código expirado."⟩ ∧
     (resetPasswordHandler dbPending "ana@x.com" "123456" "newpass1" 2000 0).2 =
       dbPending) ∧
    ((resetPasswordHandler dbPending "ana@x.com" "999999" "newpass1" 500 0).1 =
       ⟨400, "Código inválido."⟩ ∧
     (resetPasswordHandler dbPending "ana@x.com" "999999" "newpass1" 500 0).2 =
       dbPending ∧
     resetPasswordHandler
         (resetPasswordHandler dbPending "ana@x.com" "999999" "newpass1" 500 0).2
         "ana@x.com" "999999" "newpass1" 500 0 =
       resetPasswordHandler dbPending "ana@x.com" "999999" "newpass1" 500 0) :=
  ⟨(resetPassword_failure_preserves_state dbPending "ana@x.com" "123456"
      "newpass1" 2000 0).2.1 anaPending (by decide) (by decide) (by decide)
      (by decide) rfl rfl (by decide),
   (resetPassword_failure_preserves_state dbPending "ana@x.com" "999999"
      "newpass1" 500 0).2.2 anaPending (by decide) (by decide) (by decide)
      (by decide) rfl (by decide)⟩

end GameBack

namespace GameBack

/-- `find?` over a row-update that does not change the searched columns
commutes with the update. -/
theorem find?_map_congr {α : Type} (p : α → Bool) (f : α → α) (l : List α)
    (hpf : ∀ a, p (f a) = p a) :
    (l.map f).find? p = (l.find? p).map f := by
  rw [List.find?_map]
  have h : p ∘ f = p := funext hpf
  rw [h]

/-- **C5**: ForgotPassword persists the reset code before attempting email
dispatch: when dispatch fails the operation returns 500
(EmailDeliveryError) while the code and expiry are already persisted, and
the resulting store is exactly the one a successful dispatch would leave. -/
theorem forgotPassword_persist_before_mail
    (db : DB) (email : String) (k now : Nat) (u : User)
    (he : email ≠ "") (hu : findUserByEmail db email = some u) :
    (forgotPasswordHandler db email k now false).1 =
      ⟨500, "Erro ao enviar email."⟩ ∧
    (forgotPasswordHandler db email k now false).2 =
      (forgotPasswordHandler db email k now true).2 ∧
    findUserByEmail (forgotPasswordHandler db email k now false).2 email =
      some { u with reset_token := some (generateResetCode k),
                    reset_expires := some (now + 15 * 60 * 1000) } := by
  have hfind : db.users.find? (fun w => w.email == email) = some u := hu
  have h500 : forgotPasswordHandler db email k now false =
      (⟨500, "Erro ao enviar email."⟩,
        updateUserRow db u.id (fun w =>
          { w with reset_token := some (generateResetCode k),
                   reset_expires := some (now + 15 * 60 * 1000) })) := by
    simp [forgotPasswordHandler, if_neg he, hu]
  have h200 : forgotPasswordHandler db email k now true =
      (⟨200, "Código enviado para o email."⟩,
        updateUserRow db u.id (fun w =>
          { w with reset_token := some (generateResetCode k),
                   reset_expires := some (now + 15 * 60 * 1000) })) := by
    simp [forgotPasswordHandler, if_neg he, hu]
  rw [h500, h200]
  refine ⟨rfl, rfl, ?_⟩
  show (db.users.map (fun w => if w.id == u.id then
      { w with reset_token := some (generateResetCode k),
               reset_expires := some (now + 15 * 60 * 1000) } else w)).find?
      (fun w => w.email == email) = _
  rw [find?_map_congr (fun w => w.email == email)
    (fun w => if w.id == u.id then
      { w with reset_token := some (generateResetCode k),
               reset_expires := some (now + 15 * 60 * 1000) } else w)
    db.users
    (by
      intro a
      by_cases h : a.id == u.id <;> simp [h])]
  rw [hfind]
  simp

end GameBack

namespace GameBack

/-- `Nat.toDigitsCore` only ever grows its accumulator. -/
theorem toDigitsCore_length_acc_le (b : Nat) :
    ∀ (f n : Nat) (l : List Char), l.length ≤ (Nat.toDigitsCore b f n l).length := by
  intro f
  induction f with
  | zero =>
    intro n l
    simp [Nat.toDigitsCore]
  | succ f ih =>
    intro n l
    simp only [Nat.toDigitsCore]
    split
    · simp
    · calc l.length ≤ (Nat.digitChar (n % b) :: l).length := by simp
        _ ≤ _ := ih _ _

/-- Lower bound on the digit count: a number at least `b ^ e` has more than
`e` digits in base `b`. -/
theorem toDigitsCore_length_lower (b : Nat) (hb : 2 ≤ b) :
    ∀ (e f n : Nat) (l : List Char), b ^ e ≤ n → n < f →
      l.length + (e + 1) ≤ (Nat.toDigitsCore b f n l).length := by
  intro e
  induction e with
  | zero =>
    intro f n l h1 h2
    cases f with
    | zero => omega
    | succ f =>
      simp only [Nat.toDigitsCore]
      split
      · simp
      · calc l.length + (0 + 1) ≤ (Nat.digitChar (n % b) :: l).length := by simp
          _ ≤ _ := toDigitsCore_length_acc_le b _ _ _
  | succ e ih =>
    intro f n l h1 h2
    have hbpos : 0 < b := by omega
    have hpow : 0 < b ^ e := Nat.pos_pow_of_pos e hbpos
    have hn : 0 < n := lt_of_lt_of_le (Nat.pos_pow_of_pos (e + 1) hbpos) h1
    cases f with
    | zero => omega
    | succ f =>
      have hdiv : b ^ e ≤ n / b := by
        rw [Nat.le_div_iff_mul_le hbpos]
        calc b ^ e * b = b ^ (e + 1) := (pow_succ b e).symm
          _ ≤ n := h1
      have hne : ¬ n / b = 0 := by omega
      have hlt : n / b < f := by
        have hd : n / b < n := Nat.div_lt_self hn (by omega)
        omega
      simp only [Nat.toDigitsCore]
      rw [if_neg hne]
      calc l.length + (e + 1 + 1)
          = (Nat.digitChar (n % b) :: l).length + (e + 1) := by
            simp only [List.length_cons]
            omega
        _ ≤ _ := ih f (n / b) (Nat.digitChar (n % b) :: l) hdiv hlt

/-- The decimal representation of a number in `[100000, 999999]` has exactly
6 characters. -/
theorem repr_length_of_six_digit (m : Nat) (h1 : 100000 ≤ m)
    (h2 : m ≤ 999999) : (Nat.repr m).length = 6 := by
  have h10 : (10 : Nat) ^ 6 = 1000000 := by norm_num
  have h5 : (10 : Nat) ^ 5 = 100000 := by norm_num
  have hle : (Nat.repr m).length ≤ 6 :=
    Nat.repr_length m 6 (by omega) (by omega)
  have hge : 6 ≤ (Nat.repr m).length := by
    have h := toDigitsCore_length_lower 10 (by omega) 5 (m + 1) m []
      (by omega) (Nat.lt_succ_self m)
    simpa [Nat.repr, Nat.toDigits, String.length, List.asString] using h
  omega

/-- **C6**: for every existing user, a successful ForgotPassword sets
`resetCode` to a 6-digit numeric string whose value is in
`[100000, 999999]`, and sets `resetExpiry` to exactly 15 minutes after the
issuance time. -/
theorem forgotPassword_sets_six_digit_code
    (db : DB) (email : String) (k now : Nat) (u : User)
    (he : email ≠ "") (hu : findUserByEmail db email = some u) :
    (forgotPasswordHandler db email k now true).1 =
      ⟨200, "Código enviado para o email."⟩ ∧
    findUserByEmail (forgotPasswordHandler db email k now true).2 email =
      some { u with reset_token := some (generateResetCode k),
                    reset_expires := some (now + 15 * 60 * 1000) } ∧
    (∃ m, generateResetCode k = Nat.repr m ∧ 100000 ≤ m ∧ m ≤ 999999) ∧
    (generateResetCode k).length = 6 := by
  have hfind : db.users.find? (fun w => w.email == email) = some u := hu
  have hmod : k % 900000 < 900000 := Nat.mod_lt k (by omega)
  have h200 : forgotPasswordHandler db email k now true =
      (⟨200, "Código enviado para o email."⟩,
        updateUserRow db u.id (fun w =>
          { w with reset_token := some (generateResetCode k),
                   reset_expires := some (now + 15 * 60 * 1000) })) := by
    simp [forgotPasswordHandler, if_neg he, hu]
  rw [h200]
  refine ⟨rfl, ?_, ⟨100000 + k % 900000, rfl, by omega, by omega⟩, ?_⟩
  · show (db.users.map (fun w => if w.id == u.id then
        { w with reset_token := some (generateResetCode k),
                 reset_expires := some (now + 15 * 60 * 1000) } else w)).find?
        (fun w => w.email == email) = _
    rw [find?_map_congr (fun w => w.email == email)
      (fun w => if w.id == u.id then
        { w with reset_token := some (generateResetCode k),
                 reset_expires := some (now + 15 * 60 * 1000) } else w)
      db.users
      (by
        intro a
        by_cases h : a.id == u.id <;> simp [h])]
    rw [hfind]
    simp
  · exact repr_length_of_six_digit (100000 + k % 900000) (by omega) (by omega)

end GameBack

namespace GameBack

/-- Witness for C5 on `dbAna` with failing mail dispatch. -/
theorem forgotPassword_persist_before_mail_witness :
    ("ana@x.com" : String) ≠ "" ∧ findUserByEmail dbAna "ana@x.com" = some ana ∧
    ((forgotPasswordHandler dbAna "ana@x.com" 1 0 false).1 =
       ⟨500, "Erro ao enviar email."⟩ ∧
     (forgotPasswordHandler dbAna "ana@x.com" 1 0 false).2 =
       (forgotPasswordHandler dbAna "ana@x.com" 1 0 true).2 ∧
     findUserByEmail (forgotPasswordHandler dbAna "ana@x.com" 1 0 false).2
         "ana@x.com" =
       some { ana with reset_token := some (generateResetCode 1),
                       reset_expires := some (0 + 15 * 60 * 1000) }) :=
  ⟨by decide, rfl,
    forgotPassword_persist_before_mail dbAna "ana@x.com" 1 0 ana
      (by decide) rfl⟩

/-- Witness for C6 on `dbAna` with randomness `k = 123456`. -/
theorem forgotPassword_sets_six_digit_code_witness :
    ("ana@x.com" : String) ≠ "" ∧ findUserByEmail dbAna "ana@x.com" = some ana ∧
    ((forgotPasswordHandler dbAna "ana@x.com" 123456 50 true).1 =
       ⟨200, "Código enviado para o email."⟩ ∧
     findUserByEmail (forgotPasswordHandler dbAna "ana@x.com" 123456 50 true).2
         "ana@x.com" =
       some { ana with reset_token := some (generateResetCode 123456),
                       reset_expires := some (50 + 15 * 60 * 1000) } ∧
     (∃ m, generateResetCode 123456 = Nat.repr m ∧ 100000 ≤ m ∧ m ≤ 999999) ∧
     (generateResetCode 123456).length = 6) :=
  ⟨by decide, rfl,
    forgotPassword_sets_six_digit_code dbAna "ana@x.com" 123456 50 ana
      (by decide) rfl⟩

/-- **C7**: Register, ForgotPassword and ResetPassword preserve the
invariant that `reset_token` and `reset_expires` are both set or both null
on every user row. -/
theorem handlers_preserve_reset_consistency
    (db : DB) (name email password email2 email3 tok np : String)
    (salt k now : Nat) (mailOk : Bool) (now2 salt2 : Nat)
    (hdb : storeConsistent db) :
    storeConsistent (registerHandler db name email password salt).2 ∧
    storeConsistent (forgotPasswordHandler db email2 k now mailOk).2 ∧
    storeConsistent (resetPasswordHandler db email3 tok np now2 salt2).2 := by
  refine ⟨?_, ?_, ?_⟩
  · by_cases h1 : name = "" ∨ email = "" ∨ password = ""
    · simpa only [registerHandler, if_pos h1] using hdb
    · rcases hfind : findUserByEmail db email with _ | v
      · simp only [registerHandler, if_neg h1, hfind]
        intro w hw
        rcases List.mem_append.mp hw with h | h
        · exact hdb w h
        · rw [List.mem_singleton.mp h]
          rfl
      · simpa only [registerHandler, if_neg h1, hfind] using hdb
  · by_cases h1 : email2 = ""
    · simpa only [forgotPasswordHandler, if_pos h1] using hdb
    · rcases hfind : findUserByEmail db email2 with _ | v
      · simpa only [forgotPasswordHandler, if_neg h1, hfind] using hdb
      · have hmain : (forgotPasswordHandler db email2 k now mailOk).2 =
            updateUserRow db v.id (fun w =>
              { w with reset_token := some (generateResetCode k),
                       reset_expires := some (now + 15 * 60 * 1000) }) := by
          cases mailOk <;> simp [forgotPasswordHandler, if_neg h1, hfind]
        rw [hmain]
        intro w hw
        simp only [updateUserRow, List.mem_map] at hw
        obtain ⟨a, ha, rfl⟩ := hw
        by_cases hid : a.id == v.id
        · simp [hid, resetFieldsConsistent]
        · simp only [hid]
          simp only [if_false, Bool.false_eq_true]
          exact hdb a ha
  · by_cases h1 : email3 = "" ∨ tok = "" ∨ np = ""
    · simpa only [resetPasswordHandler, if_pos h1] using hdb
    · by_cases h2 : np.length < 6
      · simpa only [resetPasswordHandler, if_neg h1, if_pos h2] using hdb
      · rcases hfind : findUserByEmail db email3 with _ | v
        · simpa only [resetPasswordHandler, if_neg h1, if_neg h2, hfind]
            using hdb
        · by_cases h3 : v.reset_token ≠ some tok
          · simpa only [resetPasswordHandler, if_neg h1, if_neg h2, hfind,
              if_pos h3] using hdb
          · by_cases h4 : now2 > v.reset_expires.getD 0
            · simpa only [resetPasswordHandler, if_neg h1, if_neg h2, hfind,
                if_neg h3, if_pos h4] using hdb
            · simp only [resetPasswordHandler, if_neg h1, if_neg h2, hfind,
                if_neg h3, if_neg h4, updateUserRow]
              intro w hw
              simp only [List.mem_map] at hw
              obtain ⟨a, ha, rfl⟩ := hw
              by_cases hid : a.id == v.id
              · simp [hid, resetFieldsConsistent]
              · simp only [hid]
                simp only [if_false, Bool.false_eq_true]
                exact hdb a ha

/-- Witness for C7 on the store with a pending reset. -/
theorem handlers_preserve_reset_consistency_witness :
    storeConsistent dbPending ∧
    (storeConsistent
        (registerHandler dbPending "Bob" "bob@x.com" "pass123" 0).2 ∧
     storeConsistent
        (forgotPasswordHandler dbPending "ana@x.com" 42 0 false).2 ∧
     storeConsistent
        (resetPasswordHandler dbPending "ana@x.com" "123456" "newpass1" 500 0).2) :=
  ⟨by unfold storeConsistent resetFieldsConsistent; decide,
    handlers_preserve_reset_consistency dbPending "Bob" "bob@x.com" "pass123"
      "ana@x.com" "ana@x.com" "123456" "newpass1" 0 42 0 false 500 0
      (by unfold storeConsistent resetFieldsConsistent; decide)⟩

end GameBack

namespace GameBack

/-- **C8**: the token gate returns 401 when the bearer token is absent,
403 when decoding/signature verification fails or the token is expired, and
hands control to the protected handler exactly when the token is valid and
unexpired. -/
theorem authenticateToken_gate {α : Type} (mk : Nat → String → α)
    (authHeader : Option String) (decode : String → Option Token)
    (secret : String) (now : Nat) (handler : TokenClaims → α) :
    (splitToken authHeader = none →
      authenticateToken mk authHeader decode secret now handler =
        mk 401 "Acesso negado.") ∧
    (authHeader = none →
      authenticateToken mk authHeader decode secret now handler =
        mk 401 "Acesso negado.") ∧
    (∀ s, splitToken authHeader = some s →
      (decode s).bind (fun t => jwtVerify t secret now) = none →
      authenticateToken mk authHeader decode secret now handler =
        mk 403 "Token inválido.") ∧
    (∀ t, t.sig ≠ secret ∨ t.exp ≤ now → jwtVerify t secret now = none) ∧
    (∀ t claims, jwtVerify t secret now = some claims →
      t.sig = secret ∧ now < t.exp ∧ claims = ⟨t.id, t.email⟩) ∧
    (∀ s t claims, splitToken authHeader = some s → decode s = some t →
      jwtVerify t secret now = some claims →
      authenticateToken mk authHeader decode secret now handler =
        handler claims) := by
  refine ⟨?_, ?_, ?_, ?_, ?_, ?_⟩
  · intro h
    simp only [authenticateToken, h]
  · intro h
    subst h
    simp only [authenticateToken, splitToken]
  · intro s hs hv
    simp only [authenticateToken, hs, hv]
  · intro t ht
    rcases ht with h | h
    · have : (t.sig == secret) = false := beq_eq_false_iff_ne.mpr h
      simp [jwtVerify, this]
    · have : ¬ now < t.exp := by omega
      simp [jwtVerify, this]
  · intro t claims h
    simp only [jwtVerify] at h
    by_cases hc : (t.sig == secret) && decide (now < t.exp)
    · rw [if_pos hc] at h
      rcases Bool.and_eq_true_iff.mp hc with ⟨h1, h2⟩
      exact ⟨beq_iff_eq.mp h1, of_decide_eq_true h2,
        (Option.some.injEq _ _).mp h.symm ▸ rfl⟩
    · rw [if_neg hc] at h
      exact absurd h (Option.noConfusion ·)
  · intro s t claims hs hd hv
    simp only [authenticateToken, hs, hd, Option.some_bind, hv]

/-- Witness for C8: absent header, forged signature, and a valid token. -/
theorem authenticateToken_gate_witness :
    authenticateToken (fun st m => (⟨st, m⟩ : SimpleResponse)) none
        (fun _ => some tok0) "s" 0 (fun c => ⟨200, c.email⟩) =
      ⟨401, "Acesso negado."⟩ ∧
    authenticateToken (fun st m => (⟨st, m⟩ : SimpleResponse))
        (some "Bearer x") (fun _ => some tok0) "other" 0
        (fun c => ⟨200, c.email⟩) =
      ⟨403, "Token inválido."⟩ ∧
    authenticateToken (fun st m => (⟨st, m⟩ : SimpleResponse))
        (some "Bearer x") (fun _ => some tok0) "s" 200
        (fun c => ⟨200, c.email⟩) =
      ⟨403, "Token inválido."⟩ ∧
    authenticateToken (fun st m => (⟨st, m⟩ : SimpleResponse))
        (some "Bearer x") (fun _ => some tok0) "s" 0
        (fun c => ⟨200, c.email⟩) =
      ⟨200, "ana@x.com"⟩ :=
  ⟨(authenticateToken_gate (fun st m => (⟨st, m⟩ : SimpleResponse)) none
      (fun _ => some tok0) "s" 0 (fun c => ⟨200, c.email⟩)).2.1 rfl,
   (authenticateToken_gate (fun st m => (⟨st, m⟩ : SimpleResponse))
      (some "Bearer x") (fun _ => some tok0) "other" 0
      (fun c => ⟨200, c.email⟩)).2.2.1 "x" (by decide) (by decide),
   (authenticateToken_gate (fun st m => (⟨st, m⟩ : SimpleResponse))
      (some "Bearer x") (fun _ => some tok0) "s" 200
      (fun c => ⟨200, c.email⟩)).2.2.1 "x" (by decide) (by decide),
   (authenticateToken_gate (fun st m => (⟨st, m⟩ : SimpleResponse))
      (some "Bearer x") (fun _ => some tok0) "s" 0
      (fun c => ⟨200, c.email⟩)).2.2.2.2.2 "x" tok0 ⟨1, "ana@x.com"⟩
      (by decide) rfl (by decide)⟩

end GameBack

namespace GameBack

/-- The selection fold returns an entry whose `high_score` dominates the
seed and every listed row, and which is the seed or one of the rows. -/
theorem topFold_spec (l : List RankEntry) :
    ∀ b : RankEntry,
      b.high_score ≤ (topFold l b).high_score ∧
      (∀ r ∈ l, r.high_score ≤ (topFold l b).high_score) ∧
      (topFold l b = b ∨ topFold l b ∈ l) := by
  induction l with
  | nil =>
    intro b
    exact ⟨le_refl _, by simp, Or.inl rfl⟩
  | cons a l ih =>
    intro b
    have hstep : topFold (a :: l) b =
        topFold l (if a.high_score > b.high_score then a else b) := rfl
    rcases ih (if a.high_score > b.high_score then a else b) with ⟨h1, h2, h3⟩
    refine ⟨?_, ?_, ?_⟩
    · rw [hstep]
      by_cases h : a.high_score > b.high_score
      · calc b.high_score ≤ a.high_score := le_of_lt h
          _ = (if a.high_score > b.high_score then a else b).high_score := by
              rw [if_pos h]
          _ ≤ _ := h1
      · calc b.high_score
            = (if a.high_score > b.high_score then a else b).high_score := by
              rw [if_neg h]
          _ ≤ _ := h1
    · intro r hr
      rw [hstep]
      rcases List.mem_cons.mp hr with rfl | hr'
      · by_cases h : r.high_score > b.high_score
        · calc r.high_score
              = (if r.high_score > b.high_score then r else b).high_score := by
                rw [if_pos h]
            _ ≤ _ := h1
        · have hle : r.high_score ≤ b.high_score := not_lt.mp h
          calc r.high_score ≤ b.high_score := hle
            _ = (if r.high_score > b.high_score then r else b).high_score := by
                rw [if_neg h]
            _ ≤ _ := h1
      · exact h2 r hr'
    · rw [hstep]
      rcases h3 with heq | hmem
      · rw [heq]
        by_cases h : a.high_score > b.high_score
        · rw [if_pos h]
          exact Or.inr (List.mem_cons_self a l)
        · rw [if_neg h]
          exact Or.inl rfl
      · exact Or.inr (List.mem_cons_of_mem a hmem)

/-- `topEntry` returns a dominating member of the list, or the fallback on
the empty list. -/
theorem topEntry_spec (l : List RankEntry) :
    (∀ r ∈ l, r.high_score ≤ (topEntry l).high_score) ∧
    (l ≠ [] → topEntry l ∈ l) ∧
    (l = [] → topEntry l = ⟨"---", 0⟩) := by
  cases l with
  | nil =>
    refine ⟨by simp, fun h => absurd rfl h, fun _ => rfl⟩
  | cons a l =>
    refine ⟨?_, ?_, ?_⟩
    · intro r hr
      show r.high_score ≤ (topFold l a).high_score
      rcases List.mem_cons.mp hr with rfl | hr'
      · exact (topFold_spec l r).1
      · exact (topFold_spec l a).2.1 r hr'
    · intro _
      show topFold l a ∈ a :: l
      rcases (topFold_spec l a).2.2 with heq | hmem
      · rw [heq]
        exact List.mem_cons_self a l
      · exact List.mem_cons_of_mem a hmem
    · intro h
      exact List.noConfusion h

/-- **C9**: `GET /stats/ranking` requires no authentication — its result
ignores the Authorization header and always has status 200, returning for
each game a joined row of maximal `high_score` (or the `'---'`/0 fallback
when the game has no rows) — unlike `/stats/me` and `/stats/update`, whose
gate returns 401 on a missing header. -/
theorem ranking_requires_no_auth
    (db : DB) (authHeader : Option String) (decode : String → Option Token)
    (secret : String) (now : Nat) (gameType : String) (numScore : Int)
    (numDuration : Rat) :
    (rankingHandler db authHeader).status = 200 ∧
    rankingHandler db authHeader = rankingHandler db none ∧
    (rankingHandler db authHeader).ranking =
      games.map (fun g => (g, topEntry (gameRows db g))) ∧
    (∀ g, ∀ r ∈ gameRows db g,
      r.high_score ≤ (topEntry (gameRows db g)).high_score) ∧
    (∀ g, gameRows db g ≠ [] → topEntry (gameRows db g) ∈ gameRows db g) ∧
    (∀ g, gameRows db g = [] → topEntry (gameRows db g) = ⟨"---", 0⟩) ∧
    (statsMeRoute db none decode secret now).status = 401 ∧
    (statsUpdateRoute db none decode secret now gameType numScore
        numDuration).1.status = 401 := by
  refine ⟨rfl, rfl, rfl, ?_, ?_, ?_, rfl, rfl⟩
  · intro g r hr
    exact (topEntry_spec (gameRows db g)).1 r hr
  · intro g hne
    exact (topEntry_spec (gameRows db g)).2.1 hne
  · intro g h0
    exact (topEntry_spec (gameRows db g)).2.2 h0

/-- Witness for C9 on `dbStats` (one row: Ana, matematica, high score 50). -/
theorem ranking_requires_no_auth_witness :
    (rankingHandler dbStats (some "Bearer zzz")).status = 200 ∧
    rankingHandler dbStats (some "Bearer zzz") = rankingHandler dbStats none ∧
    (⟨"Ana", 50⟩ : RankEntry) ∈ gameRows dbStats "matematica" ∧
    (⟨"Ana", 50⟩ : RankEntry).high_score ≤
      (topEntry (gameRows dbStats "matematica")).high_score ∧
    gameRows dbStats "computacao" = [] ∧
    topEntry (gameRows dbStats "computacao") = ⟨"---", 0⟩ ∧
    (statsMeRoute dbStats none (fun _ => some tok0) "s" 0).status = 401 ∧
    (statsUpdateRoute dbStats none (fun _ => some tok0) "s" 0 "matematica" 9
        1).1.status = 401 :=
  ⟨(ranking_requires_no_auth dbStats (some "Bearer zzz") (fun _ => some tok0)
      "s" 0 "matematica" 9 1).1,
   (ranking_requires_no_auth dbStats (some "Bearer zzz") (fun _ => some tok0)
      "s" 0 "matematica" 9 1).2.1,
   by decide,
   (ranking_requires_no_auth dbStats (some "Bearer zzz") (fun _ => some tok0)
      "s" 0 "matematica" 9 1).2.2.2.1 "matematica" ⟨"Ana", 50⟩ (by decide),
   by decide,
   (ranking_requires_no_auth dbStats (some "Bearer zzz") (fun _ => some tok0)
      "s" 0 "matematica" 9 1).2.2.2.2.2.1 "computacao" (by decide),
   (ranking_requires_no_auth dbStats (some "Bearer zzz") (fun _ => some tok0)
      "s" 0 "matematica" 9 1).2.2.2.2.2.2.1,
   (ranking_requires_no_auth dbStats (some "Bearer zzz") (fun _ => some tok0)
      "s" 0 "matematica" 9 1).2.2.2.2.2.2.2⟩

/-- **C10**: `/stats/update` on an existing (user, gameType) row stores
`max(previous high_score, submitted score)` as the new high score, which
never decreases. -/
theorem statsUpdate_high_score_is_max
    (db : DB) (claims : TokenClaims) (gameType : String) (numScore : Int)
    (numDuration : Rat) (cur : GameStat)
    (hfind : db.stats.find?
        (fun r => r.user_id == claims.id && r.game_type == gameType) =
      some cur) :
    (statsUpdateHandler db claims gameType numScore numDuration).2.stats.find?
        (fun r => r.user_id == claims.id && r.game_type == gameType) =
      some { cur with total_hours := cur.total_hours + numDuration,
                      total_score := cur.total_score + numScore,
                      high_score := max cur.high_score numScore } ∧
    cur.high_score ≤ max cur.high_score numScore := by
  have hmax : (if numScore > cur.high_score then numScore else cur.high_score) =
      max cur.high_score numScore := by
    by_cases h : numScore > cur.high_score
    · rw [if_pos h, max_eq_right (le_of_lt h)]
    · rw [if_neg h, max_eq_left (not_lt.mp h)]
  refine ⟨?_, le_max_left _ _⟩
  simp only [statsUpdateHandler, hfind]
  rw [find?_map_congr
    (fun r => r.user_id == claims.id && r.game_type == gameType)
    (fun r => if r.id == cur.id then
      { r with total_hours := cur.total_hours + numDuration,
               total_score := cur.total_score + numScore,
               high_score :=
                 if numScore > cur.high_score then numScore
                 else cur.high_score }
      else r)
    db.stats
    (by
      intro a
      by_cases h : a.id == cur.id <;> simp [h])]
  rw [hfind]
  simp [hmax]

/-- Witness for C10: submitting 70 over a stored high score of 50. -/
theorem statsUpdate_high_score_is_max_witness :
    dbStats.stats.find?
        (fun r => r.user_id == (⟨1, "ana@x.com"⟩ : TokenClaims).id &&
          r.game_type == "matematica") = some statRow ∧
    ((statsUpdateHandler dbStats ⟨1, "ana@x.com"⟩ "matematica" 70 1).2.stats.find?
        (fun r => r.user_id == (⟨1, "ana@x.com"⟩ : TokenClaims).id &&
          r.game_type == "matematica") =
      some { statRow with total_hours := statRow.total_hours + 1,
                          total_score := statRow.total_score + 70,
                          high_score := max statRow.high_score 70 } ∧
     statRow.high_score ≤ max statRow.high_score 70) :=
  ⟨by decide,
    statsUpdate_high_score_is_max dbStats ⟨1, "ana@x.com"⟩ "matematica" 70 1
      statRow (by decide)⟩

end GameBack
